import Mathlib

/-!
# Verification of the rag-chat retrieval-gating and context-assembly pipeline

Shallow embedding of the `migranthelp/ai-backend-vercel` handlers:

* `api/rag-chat.mjs` — the endpoint with intent routing, the strict similarity
  (domain) gate, context assembly and primary/fallback generation ("api handler");
* `rag-chat.mjs` — three concatenated revisions of the same handler; we embed
  the first revision ("V1", no input check) and the third revision ("V3", rate
  limiter, embedding cache helpers, language-ordered name pickers,
  `MAX_CONTEXT_LEN` clamp).

Text is modelled as `List Char` (JS strings). JS numbers that carry similarity
scores and thresholds are modelled as `ℚ`. External collaborators (the
embedding and generation services, the Supabase RPCs, the weather, directions
and web lookups) are opaque oracles, as the specification declares them out of
scope; everything the handlers compute from their answers is embedded from the
source. Effects are made visible through an explicit `CallLog` the embedded
handlers return next to the response.
-/

namespace RagChat

/-! ## Text utilities (JS string semantics on `List Char`) -/

/-- ASCII case folding, the fragment of JS `toLowerCase` exercised by the
keyword tables (all keywords are already lower case; accented and Arabic
letters pass through unchanged). -/
def jsToLower (c : Char) : Char :=
  if 65 ≤ c.toNat ∧ c.toNat ≤ 90 then Char.ofNat (c.toNat + 32) else c

/-- Lower-case a whole string, as `text.toLowerCase()` does. -/
def lowerCC (s : List Char) : List Char := s.map jsToLower

/-- `needle` occurs at the start of `hay` (used to build JS `includes`). -/
def startsWithCC : List Char → List Char → Bool
  | [], _ => true
  | _ :: _, [] => false
  | a :: as, b :: bs => a == b && startsWithCC as bs

/-- JS `hay.includes(needle)`: `needle` occurs contiguously inside `hay`. -/
def substrCC (needle : List Char) : List Char → Bool
  | [] => needle.isEmpty
  | b :: bs => startsWithCC needle (b :: bs) || substrCC needle bs

/-- JS whitespace recognised by `String.prototype.trim` (ASCII fragment). -/
def isJsWs (c : Char) : Bool :=
  c == ' ' || c == '\t' || c == '\n' || c == '\r'

/-- JS `s.trim()`: strip leading and trailing whitespace. -/
def jsTrim (s : List Char) : List Char :=
  ((s.dropWhile isJsWs).reverse.dropWhile isJsWs).reverse

/-- `notEmpty` from api/rag-chat.mjs: `String(x).trim().length > 0`. -/
def notEmpty (s : List Char) : Bool := !(jsTrim s).isEmpty

/-- `trim` from api/rag-chat.mjs and rag-chat.mjs (third revision):
`(s || '').toString().slice(0, n)`. -/
def trimJs (s : List Char) (n : ℕ) : List Char := s.take n

/-! ## Intent router (`routeIntent`, api/rag-chat.mjs lines 67-80) -/

inductive Intent where
  | weather | directions | web | app_data
deriving DecidableEq, Repr

/-- Weather keywords of `routeIntent`. -/
def weatherKeys : List (List Char) :=
  ["weather".data, "météo".data, "meteo".data, "forecast".data, "pluie".data,
   "rain".data, "température".data, "طقس".data, "الطقس".data]

/-- Directions keywords of `routeIntent`. -/
def dirKeys : List (List Char) :=
  ["bus".data, "train".data, "tram".data, "direction".data, "itinéraire".data,
   "itineraire".data, "route".data, "transport".data, "oncf".data, "ctm".data,
   "station".data, "gare".data, "محطة".data, "طريق".data, "كيف أصل".data,
   "from ".data, " to ".data]

/-- Web keywords of `routeIntent`. -/
def webKeys : List (List Char) :=
  ["latest".data, "now".data, "opening hours".data, "prix".data, "price".data,
   "reviews".data, "review".data, "what is".data, "who is".data,
   "خبر الآن".data, "أحدث".data]

/-- `routeIntent(text)`: lower-case the text, then test the three keyword sets
with raw substring containment (`q.includes(k)`) in the order
weather, directions, web; default `app_data`. -/
def routeIntent (text : List Char) : Intent :=
  let q := lowerCC text
  if weatherKeys.any (fun k => substrCC k q) then .weather
  else if dirKeys.any (fun k => substrCC k q) then .directions
  else if webKeys.any (fun k => substrCC k q) then .web
  else .app_data

/-- Spec-side reformulation of the router: a declarative priority table,
scanned for the first intent whose keyword set matches. -/
def intentTable : List (Intent × List (List Char)) :=
  [(.weather, weatherKeys), (.directions, dirKeys), (.web, webKeys)]

/-- Spec-side router: first table entry that fires, else the default. -/
def prioritySelect (text : List Char) : Intent :=
  let q := lowerCC text
  ((intentTable.find? (fun p => p.2.any (fun k => substrCC k q))).map
    (fun p => p.1)).getD .app_data

/-! ## Domain gate (api/rag-chat.mjs lines 287-299) -/

/-- Binary `Math.max` on numbers. -/
def jsMax (a b : ℚ) : ℚ := if a < b then b else a

/-- `Math.max(...sims)` guarded by `sims.length ? _ : 0`. -/
def bestSim (sims : List ℚ) : ℚ :=
  match sims with
  | [] => 0
  | x :: xs => xs.foldl jsMax x

/-- `sims.filter(s => s > 0).length`. -/
def matchCount (sims : List ℚ) : ℕ :=
  (sims.filter (fun s => decide (0 < s))).length

inductive GateDecision where
  | proceed | refuse
deriving DecidableEq, Repr

/-- The similarity gate: refuse iff
`STRICT_DOMAIN && (bestSim < MIN_SIM || totalMatches === 0)`. -/
def domainGate (strict : Bool) (minSim : ℚ) (sims : List ℚ) : GateDecision :=
  if strict && (decide (bestSim sims < minSim) || decide (matchCount sims = 0))
  then .refuse else .proceed

/-! ## Data model: retrieved records, messages, citations -/

inductive Role where
  | user | assistant
deriving DecidableEq, Repr

/-- One conversation turn from the request body. -/
structure Msg where
  role : Role
  content : List Char
deriving DecidableEq, Repr

/-- A `match_services` row (fields the handlers read). -/
structure ServiceRec where
  id : ℕ
  name_en : Option (List Char)
  name_fr : Option (List Char)
  name_ar : Option (List Char)
  address : Option (List Char)
  phone : Option (List Char)
  similarity : Option ℚ
  lat : Option ℚ
  lng : Option ℚ
deriving DecidableEq, Repr

/-- A `match_places_can` row. -/
structure PlaceRec where
  id : ℕ
  name_en : Option (List Char)
  name_fr : Option (List Char)
  name_ar : Option (List Char)
  similarity : Option ℚ
deriving DecidableEq, Repr

/-- A `match_can_stadiums` row. -/
structure StadiumRec where
  id : ℕ
  name_en : Option (List Char)
  name_fr : Option (List Char)
  name_ar : Option (List Char)
  capacity : Option (List Char)
  similarity : Option ℚ
deriving DecidableEq, Repr

/-- A `match_news` row. -/
structure NewsRec where
  id : ℕ
  title_en : Option (List Char)
  title_fr : Option (List Char)
  title_ar : Option (List Char)
  similarity : Option ℚ
deriving DecidableEq, Repr

/-- `Number(x.similarity) || 0`: a missing score counts as `0`. -/
def simOf (s : Option ℚ) : ℚ := s.getD 0

inductive SrcType where
  | service | place | stadium | news
deriving DecidableEq, Repr

/-- A citation of api/rag-chat.mjs (`name` comes from a nullish chain and can
be absent; only service citations carry coordinates). -/
structure SourceApi where
  type : SrcType
  id : ℕ
  name : Option (List Char)
  lat : Option ℚ
  lng : Option ℚ
deriving DecidableEq, Repr

/-- A citation of the third revision of rag-chat.mjs (`name` comes from the
language pickers, so it is always a string). -/
structure SourceV3 where
  type : SrcType
  id : ℕ
  name : List Char
deriving DecidableEq, Repr

/-! ## Name resolution -/

/-- JS nullish coalescing `a ?? b`: keeps `a` whenever it is present, even as
the empty string. -/
def nn (a b : Option (List Char)) : Option (List Char) :=
  match a with
  | some s => some s
  | none => b

/-- The api handler's fixed fallback chain `name_fr ?? name_en ?? name_ar`
(it does not look at the request language). -/
def apiName3 (fr en ar : Option (List Char)) : Option (List Char) :=
  nn fr (nn en ar)

/-- JS truthiness of an optional string: present and non-empty. -/
def truthyStr (o : Option (List Char)) : Bool :=
  match o with
  | some s => !s.isEmpty
  | none => false

/-- The loop body of `languagePreference` (third revision): walk the ordered
field values, return the first truthy one, else the empty string. -/
def firstTruthy : List (Option (List Char)) → List Char
  | [] => []
  | v :: vs => if truthyStr v then v.getD [] else firstTruthy vs

/-- The preference order of `languagePreference`'s map, keyed by language;
`map[lang] || map.en` makes every unknown language use the English order.
The three option arguments are the record's en/fr/ar fields. -/
def langOrder (lang : List Char) (en_ fr_ ar_ : Option (List Char)) :
    List (Option (List Char)) :=
  if lang = "fr".data then [fr_, en_, ar_]
  else if lang = "ar".data then [ar_, fr_, en_]
  else [en_, fr_, ar_]

/-- `pickServiceName(lang)` applied to a service record. -/
def pickServiceName (lang : List Char) (h : ServiceRec) : List Char :=
  firstTruthy (langOrder lang h.name_en h.name_fr h.name_ar)

/-- `pickPlaceName = pickServiceName` applied to a place record. -/
def pickPlaceName (lang : List Char) (h : PlaceRec) : List Char :=
  firstTruthy (langOrder lang h.name_en h.name_fr h.name_ar)

/-- `pickStadiumName = pickServiceName` applied to a stadium record. -/
def pickStadiumName (lang : List Char) (h : StadiumRec) : List Char :=
  firstTruthy (langOrder lang h.name_en h.name_fr h.name_ar)

/-- `pickNewsTitle(lang)` applied to a news record. -/
def pickNewsTitle (lang : List Char) (h : NewsRec) : List Char :=
  firstTruthy (langOrder lang h.title_en h.title_fr h.title_ar)

/-! ## Context assembly -/

/-- `MAX_MSG_LEN` (third revision, default 1200). -/
def MAX_MSG_LEN : ℕ := 1200

/-- `MAX_CONTEXT_LEN` (third revision, hardcoded 3000). -/
def MAX_CONTEXT_LEN : ℕ := 3000

/-- `MAX_REQ_PER_IP_DAY` (third revision, default 200). -/
def MAX_REQ_PER_IP_DAY : ℕ := 200

/-- Join lines with a newline (`lines.join('\n')`). -/
def joinNl : List (List Char) → List Char
  | [] => []
  | [l] => l
  | l :: ls => l ++ '\n' :: joinNl ls

/-- `sec(title, lines)`: a category section, or nothing when empty. -/
def sec (title : List Char) (lines : List (List Char)) : List Char :=
  if lines.isEmpty then []
  else '\n' :: (title ++ ':' :: '\n' :: joinNl lines)

/-- api service line:
`- NAME @ ADDRESS (phone: P)` with per-field trims 80/80/30; the phone part
only when the phone is truthy. -/
def apiServiceLine (h : ServiceRec) : List Char :=
  "- ".data ++
    trimJs ((apiName3 h.name_fr h.name_en h.name_ar).getD "Service".data) 80 ++
    " @ ".data ++ trimJs (h.address.getD []) 80 ++ " ".data ++
    (if truthyStr h.phone then
      "(phone: ".data ++ trimJs (h.phone.getD []) 30 ++ ")".data
    else [])

/-- api place line: `- NAME (tourism)` with an 80-char name trim. -/
def apiPlaceLine (h : PlaceRec) : List Char :=
  "- ".data ++ trimJs ((apiName3 h.name_fr h.name_en h.name_ar).getD []) 80 ++
    " (tourism)".data

/-- api stadium line: `- NAME stadium, capacity: C` with trims 80/20; the
capacity part only when truthy. -/
def apiStadiumLine (h : StadiumRec) : List Char :=
  "- ".data ++ trimJs ((apiName3 h.name_fr h.name_en h.name_ar).getD []) 80 ++
    " stadium".data ++
    (if truthyStr h.capacity then
      ", capacity: ".data ++ trimJs (h.capacity.getD []) 20
    else [])

/-- api news line: `- TITLE` with a 100-char trim. -/
def apiNewsLine (h : NewsRec) : List Char :=
  "- ".data ++ trimJs ((apiName3 h.title_fr h.title_en h.title_ar).getD []) 100

/-- The api context block: sections in the fixed order Services, Places to
visit, CAN 2025 Stadiums, News. No total-length truncation is applied. -/
def apiContext (svc : List ServiceRec) (plc : List PlaceRec)
    (std : List StadiumRec) (nws : List NewsRec) : List Char :=
  sec "Services".data (svc.map apiServiceLine) ++
  sec "Places to visit".data (plc.map apiPlaceLine) ++
  sec "CAN 2025 Stadiums".data (std.map apiStadiumLine) ++
  sec "News".data (nws.map apiNewsLine)

/-- V3 service line (its phone marker is `(☎ P)`). -/
def v3ServiceLine (lang : List Char) (h : ServiceRec) : List Char :=
  "- ".data ++
    trimJs (let n := pickServiceName lang h
            if n.isEmpty then "Service".data else n) 80 ++
    " @ ".data ++ trimJs (h.address.getD []) 80 ++ " ".data ++
    (if truthyStr h.phone then
      "(☎ ".data ++ trimJs (h.phone.getD []) 30 ++ ")".data
    else [])

/-- V3 place line. -/
def v3PlaceLine (lang : List Char) (h : PlaceRec) : List Char :=
  "- ".data ++ trimJs (pickPlaceName lang h) 80 ++ " (tourism)".data

/-- V3 stadium line. -/
def v3StadiumLine (lang : List Char) (h : StadiumRec) : List Char :=
  "- ".data ++ trimJs (pickStadiumName lang h) 80 ++ " stadium".data ++
    (if truthyStr h.capacity then
      ", capacity: ".data ++ trimJs (h.capacity.getD []) 20
    else [])

/-- V3 news line. -/
def v3NewsLine (lang : List Char) (h : NewsRec) : List Char :=
  "- ".data ++ trimJs (pickNewsTitle lang h) 100

/-- The V3 context block: sections Services, Places, Stadiums, News, then the
whole block sliced to `MAX_CONTEXT_LEN` (`context.slice(0, MAX_CONTEXT_LEN)`). -/
def v3Context (lang : List Char) (svc : List ServiceRec) (plc : List PlaceRec)
    (std : List StadiumRec) (nws : List NewsRec) : List Char :=
  (sec "Services".data (svc.map (v3ServiceLine lang)) ++
   sec "Places".data (plc.map (v3PlaceLine lang)) ++
   sec "Stadiums".data (std.map (v3StadiumLine lang)) ++
   sec "News".data (nws.map (v3NewsLine lang))).take MAX_CONTEXT_LEN

/-! ## Citations -/

/-- The api sources array: one citation per record, in the fixed order
services, places, stadiums, news. -/
def apiSources (svc : List ServiceRec) (plc : List PlaceRec)
    (std : List StadiumRec) (nws : List NewsRec) : List SourceApi :=
  svc.map (fun h =>
    ⟨.service, h.id, apiName3 h.name_fr h.name_en h.name_ar, h.lat, h.lng⟩) ++
  plc.map (fun h =>
    ⟨.place, h.id, apiName3 h.name_fr h.name_en h.name_ar, none, none⟩) ++
  std.map (fun h =>
    ⟨.stadium, h.id, apiName3 h.name_fr h.name_en h.name_ar, none, none⟩) ++
  nws.map (fun h =>
    ⟨.news, h.id, apiName3 h.title_fr h.title_en h.title_ar, none, none⟩)

/-- The V3 sources array: same order, names resolved by the language pickers. -/
def v3Sources (lang : List Char) (svc : List ServiceRec) (plc : List PlaceRec)
    (std : List StadiumRec) (nws : List NewsRec) : List SourceV3 :=
  svc.map (fun h => ⟨.service, h.id, pickServiceName lang h⟩) ++
  plc.map (fun h => ⟨.place, h.id, pickPlaceName lang h⟩) ++
  std.map (fun h => ⟨.stadium, h.id, pickStadiumName lang h⟩) ++
  nws.map (fun h => ⟨.news, h.id, pickNewsTitle lang h⟩)

/-! ## Model-facing conversation -/

/-- One message of the model-facing history. -/
structure HistMsg where
  role : Role
  text : List Char
deriving DecidableEq, Repr

/-- `messages.slice(-2)`. -/
def lastN (n : ℕ) (l : List Msg) : List Msg := l.drop (l.length - n)

/-- The api `systemStyle` template, with the language spliced in. -/
def systemStyleApi (lang : List Char) : List Char :=
  "You are the in-app assistant for \"Migrant-e-s Help\" in Morocco.\nPrimary scope: app data (services + cities/categories, news, CAN 2025 stadiums & places).\nIf allowExternal=true you may also answer: weather for a city, simple directions, brief web lookups.\nStay concise, answer in ".data ++
  lang ++ ", prefer bullet points. If insufficient context, ask a brief follow-up.".data

/-- The V3 `systemStyle` switch (full localized preambles). -/
def systemStyleV3 (lang : List Char) : List Char :=
  if lang = "fr".data then
    "Vous êtes l’assistant intégré de « Migrant-e-s Help » (Maroc).\nRépondez UNIQUEMENT à partir des données de l’application (services, villes/catégories, actualités, stades CAN 2025).\nStyle : concis, en français, sous forme de puces, inclure noms/téléphones/adresses si pertinents.\nSi l’info manque, dites-le clairement sans inventer.".data
  else if lang = "ar".data then
    "أنت المساعد داخل تطبيق \"Migrant-e-s Help\" في المغرب.\nأجب فقط من بيانات التطبيق (الخدمات، المدن/الفئات، الأخبار، ملاعب كأس إفريقيا 2025).\nالأسلوب: مختصر، بالعربية، على شكل نقاط، مع ذكر الأسماء/الهاتف/العناوين إن وُجدت.\nإذا لم تتوفر المعلومات، صرّح بعدم توفرها دون اختلاق.".data
  else
    "You are the in-app assistant for \"Migrant-e-s Help\" (Morocco).\nAnswer ONLY from app data (services, cities/categories, news, CAN 2025).\nStyle: concise, in English, bullet points, include names/phones/addresses when relevant.\nIf info is missing, say you don\x27t have it. Do not invent.".data

/-- The api model-facing history: style preamble, context message
(`'Context:\n' + (context || 'None')`), then the last two turns verbatim. -/
def apiHistory (lang : List Char) (ctx : List Char) (msgs : List Msg) :
    List HistMsg :=
  ⟨.user, systemStyleApi lang⟩ ::
  ⟨.user, "Context:\n".data ++ (if ctx.isEmpty then "None".data else ctx)⟩ ::
  (lastN 2 msgs).map (fun m => ⟨m.role, m.content⟩)

/-- The V3 history: same shape, but each copied turn is clamped to
`MAX_MSG_LEN`. -/
def v3History (lang : List Char) (ctx : List Char) (msgs : List Msg) :
    List HistMsg :=
  ⟨.user, systemStyleV3 lang⟩ ::
  ⟨.user, "Context:\n".data ++ (if ctx.isEmpty then "None".data else ctx)⟩ ::
  (lastN 2 msgs).map (fun m => ⟨m.role, m.content.take MAX_MSG_LEN⟩)

/-- `domainRefusal(lang)`: the canned localized refusal. -/
def domainRefusal (lang : List Char) : List Char :=
  if lang = "fr".data then
    "Je réponds en priorité avec les données de l’app (services, actualités, CAN 2025). Activez les infos externes pour la météo/itinéraires/recherche.".data
  else if lang = "ar".data then
    "أجيب أولًا من بيانات التطبيق (الخدمات، الأخبار، كأس إفريقيا 2025). فعّل المصادر الخارجية للمناخ/الاتجاهات/البحث.".data
  else
    "I answer primarily from the app’s data (services, news, CAN 2025). Enable external info for weather/directions/search.".data

/-! ## Generation orchestration -/

/-- One entry of a backend error's `errorDetails`. -/
structure ErrDetail where
  atType : List Char
  retryDelay : Option (List Char)
deriving DecidableEq, Repr

/-- A thrown backend error, as the handlers inspect it (`e.status`,
`e.errorDetails`). -/
structure JsErr where
  status : ℕ
  errorDetails : List ErrDetail
deriving DecidableEq, Repr

/-- `Number(m[1])` on a digit run. -/
def digitsToNat (ds : List Char) : ℕ :=
  ds.foldl (fun a c => a * 10 + (c.toNat - 48)) 0

/-- The regex `/(\d+)s/`: scan for the leftmost maximal digit run followed by
the letter `s`; `acc` is the digit run read so far. -/
def findNumSAux (acc : List Char) : List Char → Option ℕ
  | [] => none
  | c :: cs =>
    if c.isDigit then findNumSAux (acc ++ [c]) cs
    else if c == 's' && !acc.isEmpty then some (digitsToNat acc)
    else findNumSAux [] cs

/-- `/(\d+)s/.exec(retryDelay)` returning the captured number. -/
def findNumS (s : List Char) : Option ℕ := findNumSAux [] s

/-- `getRetryDelayMs(err)`: the `RetryInfo` detail's `retryDelay` parsed as
seconds times 1000, defaulting to 4000 ms. -/
def getRetryDelayMs (e : JsErr) : ℕ :=
  match e.errorDetails.find? (fun d => substrCC "RetryInfo".data d.atType) with
  | some d =>
    match d.retryDelay with
    | some rd =>
      match findNumS rd with
      | some n => n * 1000
      | none => 4000
    | none => 4000
  | none => 4000

/-- The api generation step: ask `PRIMARY`; on a 429 wait `getRetryDelayMs`
and ask `FALLBACK` once; other errors propagate. Returns the outcome, the
number of generation calls issued and the list of waits performed (ms). -/
def generateWithFallback (p f : Except JsErr (List Char)) :
    Except JsErr (List Char) × ℕ × List ℕ :=
  match p with
  | .ok t => (.ok t, 1, [])
  | .error e =>
    if e.status = 429 then
      match f with
      | .ok t => (.ok t, 2, [getRetryDelayMs e])
      | .error e2 => (.error e2, 2, [getRetryDelayMs e])
    else (.error e, 1, [])

/-- The V3 soft degradation message ("Rate limit reached"). -/
def v3Apology (lang : List Char) : List Char :=
  if lang = "fr".data then
    "⚠️ Limite de requêtes atteinte. Réessayez plus tard.".data
  else if lang = "ar".data then
    "⚠️ تم تجاوز الحد. حاول لاحقاً.".data
  else
    "⚠️ Rate limit reached. Try again later.".data

/-- The V3 generation step: ask `PRIMARY`; on a 429 wait a fixed 2000 ms and
ask `PRIMARY` again (`p2` is that second attempt); if the retry also fails,
degrade to the localized apology. Other errors propagate. -/
def v3Generate (lang : List Char) (p1 p2 : Except JsErr (List Char)) :
    Except JsErr (List Char) × ℕ × List ℕ :=
  match p1 with
  | .ok t => (.ok t, 1, [])
  | .error e =>
    if e.status = 429 then
      match p2 with
      | .ok t => (.ok t, 2, [2000])
      | .error _ => (.ok (v3Apology lang), 2, [2000])
    else (.error e, 1, [])

/-! ## The handlers -/

/-- How many external calls a run performed, by kind, plus the waits slept. -/
structure CallLog where
  embedCalls : ℕ
  retrievalCalls : ℕ
  genCalls : ℕ
  adapterCalls : ℕ
  cacheLookups : ℕ
  waitsMs : List ℕ
deriving DecidableEq, Repr

def log0 : CallLog := ⟨0, 0, 0, 0, 0, []⟩

/-- The log after one external-adapter invocation. -/
def logA1 : CallLog := ⟨0, 0, 0, 1, 0, []⟩

/-- The request-body filters forwarded to the RPCs. -/
structure Filters where
  cityId : Option ℕ
  categoryId : Option ℕ
deriving DecidableEq, Repr

/-- The parsed request body (after defaults). -/
structure Request where
  language : List Char
  messages : List Msg
  filters : Filters
  allowExternal : Bool
deriving DecidableEq, Repr

/-- The api environment configuration (`STRICT_DOMAIN`, `MIN_SIM`). -/
structure Env where
  strictDomain : Bool
  minSim : ℚ
deriving DecidableEq, Repr

/-- The opaque external collaborators of the api handler. The four RPCs, the
embedding and generation backends, and the three lookup adapters (which
bundle their own HTTP calls and, for weather, the city-extraction regex) are
all out-of-scope services, modelled as pure oracles. -/
structure Oracles where
  embed : List Char → Except JsErr (List ℚ)
  matchServices : List ℚ → Filters → List ServiceRec
  matchNews : List ℚ → Filters → List NewsRec
  matchStadiums : List ℚ → Filters → List StadiumRec
  matchPlaces : List ℚ → Filters → List PlaceRec
  weatherAdapter : List Char → List Char → Option (List Char) × List SourceApi
  directionsAdapter : List Char → List Char → List Char × List SourceApi
  webAdapter : List Char → List Char → List Char × List SourceApi
  primary : List HistMsg → Except JsErr (List Char)
  fallback : List HistMsg → Except JsErr (List Char)

/-- `[...messages].reverse().find(m => m.role === 'user')?.content || ''`. -/
def rawLastUser (msgs : List Msg) : List Char :=
  ((msgs.reverse.find? (fun m =>
      match m.role with | .user => true | _ => false)).map Msg.content).getD []

inductive ApiResp where
  | badRequest (err : List Char)
  | ok (output : List Char) (sources : List SourceApi)
  | rateLimited
  | serverError (err : List Char)
deriving DecidableEq, Repr

/-- The outer `catch` of the api handler: a 429-status error surfaces as HTTP
429 `rate_limited`, everything else as HTTP 500 `chat_failed`. -/
def apiCatch (e : JsErr) : ApiResp :=
  if e.status = 429 then .rateLimited else .serverError "chat_failed".data

/-- The app-data RAG path of the api handler: embed, the four concurrent RPCs,
the similarity gate, context assembly, generation with fallback. -/
def apiAppData (env : Env) (o : Oracles) (req : Request)
    (lastUser : List Char) (log : CallLog) : ApiResp × CallLog :=
  match o.embed lastUser with
  | .error e =>
    (apiCatch e,
     ⟨log.embedCalls + 1, log.retrievalCalls, log.genCalls, log.adapterCalls,
      log.cacheLookups, log.waitsMs⟩)
  | .ok qvec =>
    let svc := o.matchServices qvec req.filters
    let nws := o.matchNews qvec req.filters
    let std := o.matchStadiums qvec req.filters
    let plc := o.matchPlaces qvec req.filters
    let log2 : CallLog :=
      ⟨log.embedCalls + 1, log.retrievalCalls + 4, log.genCalls,
       log.adapterCalls, log.cacheLookups, log.waitsMs⟩
    let sims :=
      svc.map (fun x => simOf x.similarity) ++
      nws.map (fun x => simOf x.similarity) ++
      std.map (fun x => simOf x.similarity) ++
      plc.map (fun x => simOf x.similarity)
    if domainGate env.strictDomain env.minSim sims = .refuse then
      (.ok (domainRefusal req.language) [], log2)
    else
      let history :=
        apiHistory req.language (apiContext svc plc std nws) req.messages
      match generateWithFallback (o.primary history) (o.fallback history) with
      | (.ok t, n, ws) =>
        (.ok t (apiSources svc plc std nws),
         ⟨log2.embedCalls, log2.retrievalCalls, log2.genCalls + n,
          log2.adapterCalls, log2.cacheLookups, log2.waitsMs ++ ws⟩)
      | (.error e, n, ws) =>
        (apiCatch e,
         ⟨log2.embedCalls, log2.retrievalCalls, log2.genCalls + n,
          log2.adapterCalls, log2.cacheLookups, log2.waitsMs ++ ws⟩)

/-- The api handler, from body parsing on (CORS, method dispatch, the app-key
gate and required-env checks precede it and are out of scope). -/
def apiHandler (env : Env) (o : Oracles) (req : Request) :
    ApiResp × CallLog :=
  let lastUser := rawLastUser req.messages
  if notEmpty lastUser = false then
    (.badRequest "missing_user_message".data, log0)
  else
    let intent := routeIntent lastUser
    if intent ≠ Intent.app_data ∧ req.allowExternal = false then
      (.ok (domainRefusal req.language) [], log0)
    else if intent = Intent.weather ∧ req.allowExternal = true then
      match o.weatherAdapter lastUser req.language with
      | (some t, ws) => (.ok t ws, logA1)
      | (none, _) => apiAppData env o req lastUser logA1
    else if intent = Intent.directions ∧ req.allowExternal = true then
      let r := o.directionsAdapter lastUser req.language
      (.ok r.1 r.2, logA1)
    else if intent = Intent.web ∧ req.allowExternal = true then
      let r := o.webAdapter lastUser req.language
      (.ok r.1 r.2, logA1)
    else
      apiAppData env o req lastUser log0

inductive V3Resp where
  | badRequest (err : List Char)
  | ok (output : List Char) (sources : List SourceV3)
  | rateLimited
  | serverError (err : List Char)
deriving DecidableEq, Repr

/-- The opaque collaborators of the third-revision handler. `rateCount` is
the post-insert `(day, ip)` request count the rate limiter reads; `gen1` and
`gen2` are the first and the retried call to the same `PRIMARY` backend. -/
structure OraclesV3 where
  rateCount : ℕ
  embed : List Char → Except JsErr (List ℚ)
  matchServices : List ℚ → Filters → List ServiceRec
  matchNews : List ℚ → Filters → List NewsRec
  matchStadiums : List ℚ → Filters → List StadiumRec
  matchPlaces : List ℚ → Filters → List PlaceRec
  gen1 : List HistMsg → Except JsErr (List Char)
  gen2 : List HistMsg → Except JsErr (List Char)

/-- The third-revision handler, from body parsing on. Note the embedding step
calls the embedding service directly (`embedModel.embedContent`), without
consulting the `embeddings_cache` helpers, so `cacheLookups` stays 0. -/
def handlerV3 (o : OraclesV3) (req : Request) : V3Resp × CallLog :=
  if MAX_REQ_PER_IP_DAY < o.rateCount then (.rateLimited, log0)
  else
    let lastUser := (jsTrim (rawLastUser req.messages)).take MAX_MSG_LEN
    if lastUser.isEmpty then (.badRequest "missing_user_message".data, log0)
    else
      match o.embed lastUser with
      | .error _ => (.serverError "embed_failed".data, ⟨1, 0, 0, 0, 0, []⟩)
      | .ok qvec =>
        let svc := o.matchServices qvec req.filters
        let nws := o.matchNews qvec req.filters
        let std := o.matchStadiums qvec req.filters
        let plc := o.matchPlaces qvec req.filters
        let history :=
          v3History req.language (v3Context req.language svc plc std nws)
            req.messages
        match v3Generate req.language (o.gen1 history) (o.gen2 history) with
        | (.ok t, n, ws) =>
          (.ok t (v3Sources req.language svc plc std nws), ⟨1, 4, n, 0, 0, ws⟩)
        | (.error _, n, ws) =>
          (.serverError "chat_failed".data, ⟨1, 4, n, 0, 0, ws⟩)

/-! ## Embedding cache (third revision, `embedOnce` and helpers) -/

/-- The `embeddings_cache` table: id ↦ vector. -/
abbrev EmbCache := List (List Char × List ℚ)

/-- `getCachedEmbedding`: select the vector stored under `id`. -/
def cacheLookup (cache : EmbCache) (id : List Char) : Option (List ℚ) :=
  ((cache : List _).find? (fun kv => kv.1 == id)).map (fun kv => kv.2)

/-- `putCachedEmbedding`: upsert `(id, vector)` with conflict on `id`. -/
def cacheUpsert (cache : EmbCache) (id : List Char) (v : List ℚ) : EmbCache :=
  if (cache : List _).any (fun kv => kv.1 == id) then
    (cache : List _).map (fun kv => if kv.1 == id then (id, v) else kv)
  else (cache : List _) ++ [(id, v)]

/-- `embedOnce(text)`: look the content hash up, call the embedding service
only on a miss, and store the fresh vector. The SHA-256 of the source
(`sha256('GOOGLE:' + text)` in hex) is abstracted as the parameter `hash`;
`svc` is the embedding service. Returns the vector, the updated cache, and
how many service calls were made (0 or 1). -/
def embedOnce (hash : List Char → List Char) (svc : List Char → List ℚ)
    (cache : EmbCache) (text : List Char) :
    List ℚ × EmbCache × ℕ :=
  let id := hash ("GOOGLE:".data ++ text)
  match cacheLookup cache id with
  | some v => (v, cache, 0)
  | none =>
    let v := svc text
    (v, cacheUpsert cache id v, 1)

/-! ## Supporting lemmas -/

theorem charOfNat_toNat (n : ℕ) (h : n.isValidChar) :
    (Char.ofNat n).toNat = n := by
  simp [Char.ofNat, h, Char.toNat, UInt32.toNat, Char.ofNatAux]

theorem jsToLower_idem (c : Char) : jsToLower (jsToLower c) = jsToLower c := by
  unfold jsToLower
  by_cases h : 65 ≤ c.toNat ∧ c.toNat ≤ 90
  · have hv : (c.toNat + 32).isValidChar := by
      left
      omega
    have hval : (Char.ofNat (c.toNat + 32)).toNat = c.toNat + 32 :=
      charOfNat_toNat _ hv
    rw [if_pos h, if_neg]
    rw [hval]
    omega
  · rw [if_neg h, if_neg h]

theorem lowerCC_idem (t : List Char) : lowerCC (lowerCC t) = lowerCC t := by
  simp only [lowerCC, List.map_map]
  exact List.map_congr_left (fun c _ => jsToLower_idem c)

/-- Lower-casing first does not change the routed intent (the router
lower-cases internally). -/
theorem routeIntent_lower (t : List Char) :
    routeIntent (lowerCC t) = routeIntent t := by
  unfold routeIntent
  rw [lowerCC_idem]

/-- The router equals the declarative priority-table scan. -/
theorem route_eq_priority (t : List Char) : routeIntent t = prioritySelect t := by
  unfold routeIntent prioritySelect intentTable
  simp only [List.find?]
  by_cases h1 : weatherKeys.any (fun k => substrCC k (lowerCC t)) = true
  · simp [h1]
  · rw [Bool.not_eq_true] at h1
    by_cases h2 : dirKeys.any (fun k => substrCC k (lowerCC t)) = true
    · simp [h1, h2]
    · rw [Bool.not_eq_true] at h2
      by_cases h3 : webKeys.any (fun k => substrCC k (lowerCC t)) = true
      · simp [h1, h2, h3]
      · rw [Bool.not_eq_true] at h3
        simp [h1, h2, h3]

/-- The gate's fold with `Math.max` computes the standard list maximum. -/
theorem bestSim_eq_max (sims : List ℚ) : bestSim sims = (sims.max?).getD 0 := by
  cases sims with
  | nil => rfl
  | cons x xs =>
    have hj : ∀ a b : ℚ, jsMax a b = max a b := by
      intro a b
      simp only [jsMax, max_def]
      rcases lt_trichotomy a b with h | h | h
      · rw [if_pos h, if_pos h.le]
      · subst h
        simp
      · rw [if_neg (not_lt_of_gt h), if_neg (not_le_of_gt h)]
    show (xs.foldl jsMax x) = _
    have hfold : ∀ (l : List ℚ) (a : ℚ), l.foldl jsMax a = l.foldl max a := by
      intro l
      induction l with
      | nil => intro a; rfl
      | cons y ys ih => intro a; simp only [List.foldl, hj, ih]
    rw [hfold]
    rfl

/-- The gate's `filter`-then-`length` computes `countP`. -/
theorem matchCount_eq_countP (sims : List ℚ) :
    matchCount sims = sims.countP (fun s => decide (0 < s)) := by
  unfold matchCount
  exact (sims.countP_eq_length_filter _).symm

/-- `languagePreference`'s loop returns the head of the non-empty values in
preference order (empty string when there is none). -/
theorem firstTruthy_eq (l : List (Option (List Char))) :
    firstTruthy l = ((l.filterMap id).filter (fun s => !s.isEmpty)).headD [] := by
  induction l with
  | nil => rfl
  | cons v vs ih =>
    cases v with
    | none => simpa [firstTruthy, truthyStr] using ih
    | some s =>
      by_cases hs : s.isEmpty
      · simpa [firstTruthy, truthyStr, hs] using ih
      · simp [firstTruthy, truthyStr, hs]

theorem joinNl_replicate_cons (m : ℕ) (l : List Char) :
    joinNl (List.replicate (m + 2) l)
      = l ++ '\n' :: joinNl (List.replicate (m + 1) l) := by
  rw [List.replicate_succ, List.replicate_succ]
  rfl

theorem joinNl_length_replicate (n : ℕ) (l : List Char) :
    (joinNl (List.replicate (n + 1) l)).length = (n + 1) * l.length + n := by
  induction n with
  | zero =>
    rw [show List.replicate 1 l = [l] from rfl,
      show joinNl [l] = l from rfl]
    ring
  | succ m ih =>
    rw [joinNl_replicate_cons, List.length_append, List.length_cons, ih]
    ring

/-! ## C1: the Domain Gate -/

/-- C1: for every list of similarity scores, the gate refuses exactly when
strict mode is on and (the maximum similarity, 0 for the empty list, is below
`minSimilarity`, or no similarity is positive); with `strictMode = true` and
`minSimilarity = 0.22`, scores `[0.1, 0.05]` refuse, `[0.3, 0.1]` proceed and
`[]` refuses. -/
theorem c1_domainGate :
    (∀ (strict : Bool) (minSim : ℚ) (sims : List ℚ),
      domainGate strict minSim sims = GateDecision.refuse ↔
        (strict = true ∧
          ((sims.max?).getD 0 < minSim ∨
            sims.countP (fun s => decide (0 < s)) = 0))) ∧
    domainGate true (mkRat 22 100) [mkRat 1 10, mkRat 1 20]
      = GateDecision.refuse ∧
    domainGate true (mkRat 22 100) [mkRat 3 10, mkRat 1 10]
      = GateDecision.proceed ∧
    domainGate true (mkRat 22 100) [] = GateDecision.refuse := by
  refine ⟨?_, by decide, by decide, by decide⟩
  intro strict minSim sims
  rw [← bestSim_eq_max, ← matchCount_eq_countP]
  unfold domainGate
  by_cases hb : (strict &&
      (decide (bestSim sims < minSim) || decide (matchCount sims = 0))) = true
  · rw [if_pos hb]
    simp only [Bool.and_eq_true, Bool.or_eq_true, decide_eq_true_eq] at hb
    exact iff_of_true rfl hb
  · rw [if_neg hb]
    simp only [Bool.and_eq_true, Bool.or_eq_true, decide_eq_true_eq] at hb
    exact iff_of_false (fun hc => GateDecision.noConfusion hc) hb

/-- Witness for C1 at a concrete input. -/
theorem c1_domainGate_witness :
    domainGate true (mkRat 22 100) [mkRat 1 10] = GateDecision.refuse :=
  (c1_domainGate.1 true (mkRat 22 100) [mkRat 1 10]).mpr
    ⟨rfl, Or.inl (by decide)⟩

/-! ## C2: substring matching in the router -/

/-- C2 fails on the code: the router matches raw substrings, so the word
`train` — itself a Directions keyword, and matching no Weather keyword as a
whole token — is routed to Weather because it contains `rain`. -/
theorem c2_substringRouting :
    routeIntent "train".data = Intent.weather ∧
    weatherKeys.contains "train".data = false ∧
    dirKeys.contains "train".data = true := by decide

/-! ## C8: the intent router on the spec's examples -/

/-- C8: the router is a pure function of the lower-cased text, evaluates the
keyword sets in the fixed order Weather, Directions, Web, AppData-default
(stated as equality with a declarative priority-table scan), and classifies
the four spec examples as Weather, Directions, Web and AppData. -/
theorem c8_intentRouter :
    (∀ t : List Char, routeIntent t = prioritySelect t) ∧
    (∀ t : List Char, routeIntent (lowerCC t) = routeIntent t) ∧
    routeIntent "what\x27s the weather in Rabat".data = Intent.weather ∧
    routeIntent "bus from Rabat to Casablanca".data = Intent.directions ∧
    routeIntent "latest news price reviews".data = Intent.web ∧
    routeIntent "health services in Rabat".data = Intent.app_data :=
  ⟨route_eq_priority, routeIntent_lower, by decide, by decide, by decide,
   by decide⟩

/-! ## C5: display-name resolution -/

/-- C5 counterexample: the api handler's inline fallback chain
`name_fr ?? name_en ?? name_ar` ignores the request language, so the record
with `name_fr="A", name_en="B", name_ar="C"` is cited as "A" whatever the
language — the claim requires "C" under language "ar". -/
theorem c5_apiNameChain :
    (apiSources [⟨5, some "B".data, some "A".data, some "C".data, none, none,
        none, none, none⟩] [] [] []).map SourceApi.name = [some "A".data] ∧
    "A".data ≠ "C".data := by decide

/-- C5 amended: the third revision's `languagePreference` pickers do resolve
names as claimed — first non-empty field in the caller's language order
(fr: name_fr, name_en, name_ar; ar: name_ar, name_fr, name_en; en and any
other language: name_en, name_fr, name_ar), empty string when all are absent;
the two spec examples hold there. -/
theorem c5_namePreference :
    (∀ (lang : List Char) (en_ fr_ ar_ : Option (List Char)),
      firstTruthy (langOrder lang en_ fr_ ar_) =
        (((langOrder lang en_ fr_ ar_).filterMap id).filter
          (fun s => !s.isEmpty)).headD []) ∧
    pickServiceName "ar".data ⟨0, some "B".data, some "A".data, some "C".data,
      none, none, none, none, none⟩ = "C".data ∧
    pickServiceName "fr".data ⟨0, some "B".data, none, none,
      none, none, none, none, none⟩ = "B".data ∧
    pickNewsTitle "ar".data ⟨0, some "B".data, some "A".data, some "C".data,
      none⟩ = "C".data ∧
    (∀ lang : List Char, pickServiceName lang
      ⟨0, none, none, none, none, none, none, none, none⟩ = []) :=
  ⟨fun _ _ _ _ => firstTruthy_eq _, by decide, by decide, by decide,
   fun lang => by
    unfold pickServiceName langOrder
    split
    · rfl
    · split <;> rfl⟩

/-! ## C4: context-length caps -/

/-- The service record used by the C4 counterexample: an 80-character name
and nothing else. -/
def c4Svc : ServiceRec :=
  ⟨1, none, some (List.replicate 80 'a'), none, none, none, none, none, none⟩

/-- C4 counterexample: the api handler's context builder applies no
total-length slice, so 40 retrieved service records with 80-character names
already assemble to 3490 characters — beyond the 3000-character cap the claim
asserts for every set of retrieved records. -/
theorem c4_apiContextOverflow :
    MAX_CONTEXT_LEN < (apiContext (List.replicate 40 c4Svc) [] [] []).length := by
  have hmap : (List.replicate 40 c4Svc).map apiServiceLine
      = List.replicate 40 (apiServiceLine c4Svc) := by
    simp [List.map_replicate]
  have hne : (List.replicate 40 (apiServiceLine c4Svc)).isEmpty = false := rfl
  have hline : (apiServiceLine c4Svc).length = 86 := by decide
  have h0 : apiContext (List.replicate 40 c4Svc) [] [] [] =
      '\n' :: ("Services".data ++ ':' :: '\n' ::
        joinNl (List.replicate 40 (apiServiceLine c4Svc))) := by
    unfold apiContext
    rw [hmap]
    simp [sec, hne]
  have h39 : (joinNl (List.replicate 40 (apiServiceLine c4Svc))).length
      = 40 * 86 + 39 := by
    have h := joinNl_length_replicate 39 (apiServiceLine c4Svc)
    rw [hline] at h
    simpa using h
  have hs : ("Services".data : List Char).length = 8 := rfl
  rw [h0]
  simp only [List.length_cons, List.length_append, h39, hs, MAX_CONTEXT_LEN]
  omega

/-- C4 amended: every field of a context line is truncated to its per-field
cap (`trim` never exceeds its bound), and the third revision's assembler
slices the joined block to `MAX_CONTEXT_LEN = 3000`, so its total length
never exceeds the cap regardless of how many records are retrieved. (The
api revision applies no total slice — see the counterexample.) -/
theorem c4_contextCaps :
    (∀ (lang : List Char) (svc : List ServiceRec) (plc : List PlaceRec)
        (std : List StadiumRec) (nws : List NewsRec),
      (v3Context lang svc plc std nws).length ≤ MAX_CONTEXT_LEN) ∧
    (∀ (s : List Char) (n : ℕ), (trimJs s n).length ≤ n) :=
  ⟨fun _ _ _ _ _ => List.length_take_le _ _,
   fun _ _ => List.length_take_le _ _⟩

/-! ## Handler-level statement helpers and shared concrete fixtures -/

/-- The similarity list the api handler gates on, given the embedded vector. -/
def simsOf (o : Oracles) (v : List ℚ) (req : Request) : List ℚ :=
  (o.matchServices v req.filters).map (fun x => simOf x.similarity) ++
  (o.matchNews v req.filters).map (fun x => simOf x.similarity) ++
  (o.matchStadiums v req.filters).map (fun x => simOf x.similarity) ++
  (o.matchPlaces v req.filters).map (fun x => simOf x.similarity)

/-- The model-facing history the api handler builds on the app-data path. -/
def histOf (o : Oracles) (v : List ℚ) (req : Request) : List HistMsg :=
  apiHistory req.language
    (apiContext (o.matchServices v req.filters) (o.matchPlaces v req.filters)
      (o.matchStadiums v req.filters) (o.matchNews v req.filters))
    req.messages

/-- Trivial api oracles: empty retrievals, weather finds no city, generation
succeeds with an empty answer. -/
def oTriv : Oracles :=
  ⟨fun _ => .ok [], fun _ _ => [], fun _ _ => [], fun _ _ => [], fun _ _ => [],
   fun _ _ => (none, []), fun _ _ => ([], []), fun _ _ => ([], []),
   fun _ => .ok [], fun _ => .ok []⟩

/-- Trivial V3 oracles: request count 0, empty retrievals, generation ok. -/
def oTrivV3 : OraclesV3 :=
  ⟨0, fun _ => .ok [], fun _ _ => [], fun _ _ => [], fun _ _ => [],
   fun _ _ => [], fun _ => .ok "ok".data, fun _ => .ok "ok".data⟩

/-- `STRICT_DOMAIN=1`, `MIN_SIM` at its 0.22 default. -/
def envStrict : Env := ⟨true, mkRat 22 100⟩

/-- Strict mode off, `MIN_SIM` at its default. -/
def envLoose : Env := ⟨false, mkRat 22 100⟩

/-! ## C3: empty last user turn -/

/-- C3: whenever the last user turn trims to the empty string, both the api
handler and the third revision return HTTP 400 `missing_user_message` with
all call counters zero — no embedding, retrieval or generation call. (For
the third revision, after passing the rate limiter, which itself makes none
of those calls.) -/
theorem c3_emptyInput400 :
    (∀ (env : Env) (o : Oracles) (req : Request),
      jsTrim (rawLastUser req.messages) = [] →
      apiHandler env o req
        = (ApiResp.badRequest "missing_user_message".data, log0)) ∧
    (∀ (o : OraclesV3) (req : Request),
      o.rateCount ≤ MAX_REQ_PER_IP_DAY →
      jsTrim (rawLastUser req.messages) = [] →
      handlerV3 o req
        = (V3Resp.badRequest "missing_user_message".data, log0)) := by
  constructor
  · intro env o req h
    have hne : notEmpty (rawLastUser req.messages) = false := by
      simp [notEmpty, h]
    simp [apiHandler, hne]
  · intro o req hrate h
    have hlt : ¬ (MAX_REQ_PER_IP_DAY < o.rateCount) := Nat.not_lt.mpr hrate
    simp [handlerV3, hlt, h]

/-- A request whose only user turn is whitespace. -/
def reqWs : Request := ⟨"en".data, [⟨.user, "   ".data⟩], ⟨none, none⟩, false⟩

/-- Witness for C3: both handlers on the whitespace-only request. -/
theorem c3_emptyInput400_witness :
    apiHandler envStrict oTriv reqWs
        = (ApiResp.badRequest "missing_user_message".data, log0) ∧
    handlerV3 oTrivV3 reqWs
        = (V3Resp.badRequest "missing_user_message".data, log0) :=
  ⟨c3_emptyInput400.1 envStrict oTriv reqWs (by decide),
   c3_emptyInput400.2 oTrivV3 reqWs (by decide) (by decide)⟩

/-! ## C7: domain refusals -/

/-- C7 amended: a refusal for external intent with `allowExternal=false` is a
200 response carrying the localized `domainRefusal` and empty sources, with
zero adapter, embedding, retrieval and generation calls; a strict-gate
refusal on the app-data path is likewise a 200 `domainRefusal` with empty
sources and zero generation and adapter calls (after the one embedding and
the four retrieval calls the gate needs). -/
theorem c7_domainRefusal :
    (∀ (env : Env) (o : Oracles) (req : Request),
      notEmpty (rawLastUser req.messages) = true →
      routeIntent (rawLastUser req.messages) ≠ Intent.app_data →
      req.allowExternal = false →
      apiHandler env o req = (ApiResp.ok (domainRefusal req.language) [], log0)) ∧
    (∀ (env : Env) (o : Oracles) (req : Request) (v : List ℚ),
      notEmpty (rawLastUser req.messages) = true →
      routeIntent (rawLastUser req.messages) = Intent.app_data →
      o.embed (rawLastUser req.messages) = .ok v →
      domainGate env.strictDomain env.minSim (simsOf o v req) = .refuse →
      apiHandler env o req
        = (ApiResp.ok (domainRefusal req.language) [], ⟨1, 4, 0, 0, 0, []⟩)) := by
  constructor
  · intro env o req hne hint hext
    simp [apiHandler, hne, hint, hext]
  · intro env o req v hne hroute hembed hgate
    simp only [simsOf, List.append_assoc] at hgate
    simp [apiHandler, hne, hroute, apiAppData, hembed, hgate, log0]

/-- A weather-intent request with externals enabled. -/
def c7Req : Request :=
  ⟨"en".data, [⟨.user, "weather".data⟩], ⟨none, none⟩, true⟩

/-- C7 counterexample: with `allowExternal=true`, a weather query whose city
cannot be geocoded falls through to the app-data path, so a strict-gate
refusal can be produced after one weather-adapter invocation — refuting
"invoking no external adapter" for gate refusals. -/
theorem c7_adapterThenRefusal :
    apiHandler envStrict oTriv c7Req
        = (ApiResp.ok (domainRefusal "en".data) [], ⟨1, 4, 0, 1, 0, []⟩) ∧
    (⟨1, 4, 0, 1, 0, []⟩ : CallLog).adapterCalls ≠ 0 := by decide

/-- A weather-intent request with externals disabled. -/
def reqExtOff : Request :=
  ⟨"fr".data, [⟨.user, "weather".data⟩], ⟨none, none⟩, false⟩

/-- An in-domain request that the strict gate will refuse (no matches). -/
def c7hReq : Request :=
  ⟨"fr".data, [⟨.user, "hello".data⟩], ⟨none, none⟩, false⟩

/-- Witness for C7 at concrete inputs: both refusal branches. -/
theorem c7_domainRefusal_witness :
    apiHandler envStrict oTriv reqExtOff
        = (ApiResp.ok (domainRefusal "fr".data) [], log0) ∧
    apiHandler envStrict oTriv c7hReq
        = (ApiResp.ok (domainRefusal "fr".data) [], ⟨1, 4, 0, 0, 0, []⟩) :=
  ⟨c7_domainRefusal.1 envStrict oTriv reqExtOff (by decide) (by decide) rfl,
   c7_domainRefusal.2 envStrict oTriv c7hReq [] (by decide) (by decide) rfl
     (by decide)⟩

/-! ## C6: quota fallback in the api generation orchestrator -/

/-- C6: on the app-data path, when the primary call fails with status 429 and
the fallback call succeeds, the handler answers 200 with exactly the
fallback's text, two generation calls, and a single wait of
`getRetryDelayMs` — which is the backend-provided `RetryInfo` delay
(`seconds × 1000`) when one parses, and the fixed 4000 ms default when no
`RetryInfo` detail is present. -/
theorem c6_fallbackRetry :
    (∀ (env : Env) (o : Oracles) (req : Request) (v : List ℚ) (e : JsErr)
        (t : List Char),
      notEmpty (rawLastUser req.messages) = true →
      routeIntent (rawLastUser req.messages) = Intent.app_data →
      o.embed (rawLastUser req.messages) = .ok v →
      domainGate env.strictDomain env.minSim (simsOf o v req) = .proceed →
      o.primary (histOf o v req) = .error e →
      e.status = 429 →
      o.fallback (histOf o v req) = .ok t →
      apiHandler env o req =
        (ApiResp.ok t (apiSources (o.matchServices v req.filters)
            (o.matchPlaces v req.filters) (o.matchStadiums v req.filters)
            (o.matchNews v req.filters)),
         ⟨1, 4, 2, 0, 0, [getRetryDelayMs e]⟩)) ∧
    (∀ e : JsErr,
      e.errorDetails.find? (fun d => substrCC "RetryInfo".data d.atType)
          = none →
      getRetryDelayMs e = 4000) ∧
    (∀ (e : JsErr) (d : ErrDetail) (rd : List Char) (n : ℕ),
      e.errorDetails.find? (fun d => substrCC "RetryInfo".data d.atType)
          = some d →
      d.retryDelay = some rd → findNumS rd = some n →
      getRetryDelayMs e = n * 1000) := by
  refine ⟨?_, ?_, ?_⟩
  · intro env o req v e t hne hroute hembed hgate hp h429 hf
    simp only [simsOf, List.append_assoc] at hgate
    simp only [histOf] at hp hf
    simp [apiHandler, hne, hroute, apiAppData, hembed, hgate,
      generateWithFallback, hp, hf, h429, log0]
  · intro e hnone
    unfold getRetryDelayMs
    rw [hnone]
  · intro e d rd n hfind hrd hnum
    unfold getRetryDelayMs
    rw [hfind]
    simp [hrd, hnum]

/-- A 429 error carrying a `RetryInfo` detail with a 30-second delay. -/
def c6Err : JsErr :=
  ⟨429, [⟨"type.googleapis.com/google.rpc.RetryInfo".data, some "30s".data⟩]⟩

/-- Oracles whose primary backend rate-limits and whose fallback answers. -/
def c6O : Oracles :=
  ⟨fun _ => .ok [], fun _ _ => [], fun _ _ => [], fun _ _ => [], fun _ _ => [],
   fun _ _ => (none, []), fun _ _ => ([], []), fun _ _ => ([], []),
   fun _ => .error c6Err, fun _ => .ok "fallback".data⟩

def c6Req : Request :=
  ⟨"en".data, [⟨.user, "hello".data⟩], ⟨none, none⟩, false⟩

/-- Witness for C6: the concrete run waits the backend's 30 s (30000 ms) and
answers with the fallback's text after exactly two generation calls. -/
theorem c6_fallbackRetry_witness :
    apiHandler envLoose c6O c6Req
      = (ApiResp.ok "fallback".data (apiSources [] [] [] []),
         ⟨1, 4, 2, 0, 0, [30000]⟩) := by
  have h := c6_fallbackRetry.1 envLoose c6O c6Req [] c6Err "fallback".data
    (by decide) (by decide) rfl (by decide) rfl rfl rfl
  exact h.trans (by decide)

/-! ## C10: the sources array of successful app-data responses -/

/-- A C10 fixture: an 80-character service name, 38 copies of which fill the
context beyond `MAX_CONTEXT_LEN` before the News section starts. -/
def c10Svc : ServiceRec :=
  ⟨2, some (List.replicate 80 'a'), none, none, none, none, none, none, none⟩

def c10Svcs : List ServiceRec := List.replicate 38 c10Svc

/-- A news record whose title is sliced out of the context entirely. -/
def c10News : NewsRec := ⟨7, some "ZZZ".data, none, none, none⟩

theorem sec_nil (t : List Char) : sec t [] = [] := by simp [sec]

/-- C10: every successful (`ok`) response of the third-revision handler
carries one citation per retrieved record, concatenated in the fixed order
services, places, stadiums, news; and the citations are independent of the
context truncation — concretely, 38 long service records leave the context
identical whether or not a news record was retrieved (its line is beyond the
3000-character slice), while its citation still appears in the sources. -/
theorem c10_sourcesComplete :
    (∀ (o : OraclesV3) (req : Request) (v : List ℚ) (t : List Char)
        (srcs : List SourceV3) (log : CallLog),
      o.embed ((jsTrim (rawLastUser req.messages)).take MAX_MSG_LEN) = .ok v →
      handlerV3 o req = (.ok t srcs, log) →
      srcs =
        (o.matchServices v req.filters).map
          (fun h => ⟨.service, h.id, pickServiceName req.language h⟩) ++
        (o.matchPlaces v req.filters).map
          (fun h => ⟨.place, h.id, pickPlaceName req.language h⟩) ++
        (o.matchStadiums v req.filters).map
          (fun h => ⟨.stadium, h.id, pickStadiumName req.language h⟩) ++
        (o.matchNews v req.filters).map
          (fun h => ⟨.news, h.id, pickNewsTitle req.language h⟩)) ∧
    (v3Context "en".data c10Svcs [] [] [c10News]
        = v3Context "en".data c10Svcs [] [] [] ∧
      v3Sources "en".data c10Svcs [] [] [c10News]
        = v3Sources "en".data c10Svcs [] [] []
            ++ [⟨SrcType.news, 7, "ZZZ".data⟩]) := by
  constructor
  · intro o req v t srcs log hembed h
    simp only [handlerV3] at h
    split at h
    · exact absurd (congrArg Prod.fst h) (by simp)
    · split at h
      · exact absurd (congrArg Prod.fst h) (by simp)
      · split at h
        next e heq =>
          exact absurd (congrArg Prod.fst h) (by simp)
        next qvec heq =>
          rw [hembed] at heq
          injection heq with heqv
          subst heqv
          split at h
          next t' n ws hgen =>
            have hfst := congrArg Prod.fst h
            simp only at hfst
            injection hfst with ht hsrcs
            rw [← hsrcs]
            simp [v3Sources]
          next e n ws hgen =>
            exact absurd (congrArg Prod.fst h) (by simp)
  · constructor
    · have hmap : c10Svcs.map (v3ServiceLine "en".data)
          = List.replicate 38 (v3ServiceLine "en".data c10Svc) := by
        simp [c10Svcs, List.map_replicate]
      have hline : (v3ServiceLine "en".data c10Svc).length = 86 := by decide
      have hfalse : (List.replicate 38 (v3ServiceLine "en".data c10Svc)).isEmpty
          = false := rfl
      have hS : MAX_CONTEXT_LEN ≤ (sec "Services".data
          (List.replicate 38 (v3ServiceLine "en".data c10Svc))).length := by
        have hj := joinNl_length_replicate 37 (v3ServiceLine "en".data c10Svc)
        rw [hline] at hj
        simp only [sec, hfalse, Bool.false_eq_true, if_false, List.length_cons,
          List.length_append, hj, MAX_CONTEXT_LEN,
          show ("Services".data : List Char).length = 8 from rfl]
        omega
      unfold v3Context
      rw [hmap]
      simp only [List.map_nil, List.map_cons, sec_nil, List.append_nil]
      rw [List.take_append_of_le_length hS]
    · have hpick : pickNewsTitle "en".data c10News = "ZZZ".data := by decide
      simp [v3Sources, hpick, show c10News.id = 7 from rfl]

/-- The one retrieved service record of the C10 witness run. -/
def c10wSvc : ServiceRec :=
  ⟨3, some "Aid".data, none, none, none, none, none, none, none⟩

def c10wO : OraclesV3 :=
  ⟨0, fun _ => .ok [], fun _ _ => [c10wSvc], fun _ _ => [], fun _ _ => [],
   fun _ _ => [], fun _ => .ok "answer".data, fun _ => .ok "answer".data⟩

def c10wReq : Request :=
  ⟨"en".data, [⟨.user, "hello".data⟩], ⟨none, none⟩, false⟩

/-- Witness for C10: a concrete successful run whose sources are exactly the
concatenated per-category citations. -/
theorem c10_sourcesComplete_witness :
    ([⟨SrcType.service, 3, "Aid".data⟩] : List SourceV3) =
      (c10wO.matchServices [] c10wReq.filters).map
        (fun h => ⟨.service, h.id, pickServiceName c10wReq.language h⟩) ++
      (c10wO.matchPlaces [] c10wReq.filters).map
        (fun h => ⟨.place, h.id, pickPlaceName c10wReq.language h⟩) ++
      (c10wO.matchStadiums [] c10wReq.filters).map
        (fun h => ⟨.stadium, h.id, pickStadiumName c10wReq.language h⟩) ++
      (c10wO.matchNews [] c10wReq.filters).map
        (fun h => ⟨.news, h.id, pickNewsTitle c10wReq.language h⟩) :=
  c10_sourcesComplete.1 c10wO c10wReq [] "answer".data
    [⟨SrcType.service, 3, "Aid".data⟩] ⟨1, 4, 1, 0, 0, []⟩ rfl (by decide)

/-! ## C9: the embedding cache -/

/-- The abstracted content hash of the C9 run (any function works; the
source's SHA-256 is injective on these inputs). -/
def c9Hash : List Char → List Char := fun s => s

/-- The embedding service of the C9 run: a constant one-entry vector. -/
def c9EmbSvc : List Char → List ℚ := fun _ => [mkRat 3 4]

def c9Req : Request :=
  ⟨"en".data, [⟨.user, "hello".data⟩], ⟨none, none⟩, false⟩

/-- C9: `embedOnce` does behave as claimed — embedding "hello" twice costs
exactly one service call and returns identical vectors — but the
third-revision handler bypasses it: each request makes one direct embedding
service call and zero cache lookups, so the same text sent twice is embedded
twice. -/
theorem c9_embedCacheBypass :
    (embedOnce c9Hash c9EmbSvc [] "hello".data).1
        = (embedOnce c9Hash c9EmbSvc
            (embedOnce c9Hash c9EmbSvc [] "hello".data).2.1 "hello".data).1 ∧
    (embedOnce c9Hash c9EmbSvc [] "hello".data).2.2
        + (embedOnce c9Hash c9EmbSvc
            (embedOnce c9Hash c9EmbSvc [] "hello".data).2.1 "hello".data).2.2
        = 1 ∧
    (handlerV3 oTrivV3 c9Req).2.embedCalls = 1 ∧
    (handlerV3 oTrivV3 c9Req).2.cacheLookups = 0 := by decide

end RagChat
